import Mathlib

/-!
Verification of libkhax (`src/khaxinit.cpp`): a shallow embedding of the
version registry, the address translation helper, the two exploit state
machines (`MemChunkHax` and `MemChunkHax2`), and the legacy session
destructor, together with theorems about the specified properties.

Machine integers are modelled as `Nat` carrying the u32 bit pattern
(`% 2^32` where wraparound could occur); the C `int` fields `m_nextStep`
and `m_corrupted` are modelled as `Int`.  External host services
(syscalls, the GPU copy engine, APT queries) are modelled as oracle
parameters supplying their observable results.
-/

namespace KHAX

/-- C `Result` values are carried as their u32 bit pattern. -/
abbrev CResult := Nat

/-- Source: `MakeError` from khaxinit.cpp: `(level << 27) + (summary << 21) + (module << 10) + error`,
computed in 32-bit arithmetic. -/
def MakeError (level summary mod err : Nat) : CResult :=
  (level * 2 ^ 27 + summary * 2 ^ 21 + mod * 2 ^ 10 + err) % 2 ^ 32

/-- The module code used by every khax error (`KHAX_MODULE = 254`). -/
def KHAX_MODULE : Nat := 254

/-- The sequencing-error code returned by every step invoked out of order:
`MakeError(28, 5, KHAX_MODULE, 1016)`. -/
def sequencingError : CResult := MakeError 28 5 KHAX_MODULE 1016

/-- Source: `R_FAILED` on a u32-encoded `Result`: the sign bit (bit 31) is set. -/
def R_FAILED (r : CResult) : Bool := r.testBit 31

/-- The platform SDK's `SYSTEM_VERSION(major, minor, revision)` macro packs the
three components into bytes 3, 2 and 1 of a u32. -/
def SYSTEM_VERSION (major minor revision : Nat) : Nat :=
  major * 2 ^ 24 + minor * 2 ^ 16 + revision * 2 ^ 8

/-- Tag standing for the per-version `m_makeKProcessPointers` accessor function
(`MakeKProcessPointers<KProcess_1_0_0_Old>` etc.); the function pointer itself
only selects a `KProcess` field layout, so it is embedded as an enumeration. -/
inductive KProcVariant where
  | old_1_0_0
  | old_8_0_0
  | new_8_0_0
deriving DecidableEq, Repr

/-- One row of `VersionData::s_versionTable` (the non-static data members of
`struct VersionData`, in declaration order). -/
structure VersionData where
  new3DS : Bool
  kernelVersion : Nat
  nominalVersion : Nat
  threadPatchAddress : Nat
  syscallPatchAddress : Nat
  fcramVirtualAddress : Nat
  fcramSize : Nat
  slabHeapVirtualAddress : Nat
  makeKProcessPointers : KProcVariant
deriving DecidableEq, Repr

namespace VersionData

/-- Static member `m_fcramPhysicalAddress = 0x20000000`. -/
def fcramPhysicalAddress : Nat := 0x20000000

/-- Static member `m_slabHeapPhysicalAddress = 0x1FFA0000`. -/
def slabHeapPhysicalAddress : Nat := 0x1FFA0000

/-- Static member `m_kernelVirtualToPhysical = 0x40000000`. -/
def kernelVirtualToPhysical : Nat := 0x40000000

/-- Static member `m_threadPatchOriginalCode = 0x8DD00CE5`. -/
def threadPatchOriginalCode : Nat := 0x8DD00CE5

/-- Source: `VersionData::s_versionTable`, row by row. -/
def s_versionTable : List VersionData :=
  [ -- Old 3DS, old address layout
    ⟨false, SYSTEM_VERSION 2 34 0, SYSTEM_VERSION 4 1 0, 0xEFF83C9F, 0xEFF827CC,
      0xF0000000, 0x08000000, 0xFFF00000, .old_1_0_0⟩,
    ⟨false, SYSTEM_VERSION 2 35 6, SYSTEM_VERSION 5 0 0, 0xEFF83737, 0xEFF822A8,
      0xF0000000, 0x08000000, 0xFFF70000, .old_1_0_0⟩,
    ⟨false, SYSTEM_VERSION 2 36 0, SYSTEM_VERSION 5 1 0, 0xEFF83733, 0xEFF822A4,
      0xF0000000, 0x08000000, 0xFFF70000, .old_1_0_0⟩,
    ⟨false, SYSTEM_VERSION 2 37 0, SYSTEM_VERSION 6 0 0, 0xEFF83733, 0xEFF822A4,
      0xF0000000, 0x08000000, 0xFFF70000, .old_1_0_0⟩,
    ⟨false, SYSTEM_VERSION 2 38 0, SYSTEM_VERSION 6 1 0, 0xEFF83733, 0xEFF822A4,
      0xF0000000, 0x08000000, 0xFFF70000, .old_1_0_0⟩,
    ⟨false, SYSTEM_VERSION 2 39 4, SYSTEM_VERSION 7 0 0, 0xEFF83737, 0xEFF822A8,
      0xF0000000, 0x08000000, 0xFFF00000, .old_1_0_0⟩,
    ⟨false, SYSTEM_VERSION 2 40 0, SYSTEM_VERSION 7 2 0, 0xEFF83733, 0xEFF822A4,
      0xF0000000, 0x08000000, 0xFFF00000, .old_1_0_0⟩,
    -- Old 3DS, new address layout
    ⟨false, SYSTEM_VERSION 2 44 6, SYSTEM_VERSION 8 0 0, 0xDFF8376F, 0xDFF82294,
      0xE0000000, 0x08000000, 0xFFF00000, .old_8_0_0⟩,
    ⟨false, SYSTEM_VERSION 2 46 0, SYSTEM_VERSION 9 0 0, 0xDFF8383F, 0xDFF82290,
      0xE0000000, 0x08000000, 0xFFF70000, .old_8_0_0⟩,
    -- memchunkhax does not apply to these, so patch addresses are set to 0x0.
    ⟨false, SYSTEM_VERSION 2 48 3, SYSTEM_VERSION 9 3 0, 0x0, 0x0,
      0xE0000000, 0x08000000, 0xFFF70000, .old_8_0_0⟩,
    ⟨false, SYSTEM_VERSION 2 49 0, SYSTEM_VERSION 9 5 0, 0x0, 0x0,
      0xE0000000, 0x08000000, 0xFFF70000, .old_8_0_0⟩,
    ⟨false, SYSTEM_VERSION 2 50 1, SYSTEM_VERSION 9 6 0, 0x0, 0x0,
      0xE0000000, 0x08000000, 0xFFF70000, .old_8_0_0⟩,
    ⟨false, SYSTEM_VERSION 2 50 7, SYSTEM_VERSION 10 0 0, 0x0, 0x0,
      0xE0000000, 0x08000000, 0xFFF70000, .old_8_0_0⟩,
    ⟨false, SYSTEM_VERSION 2 50 9, SYSTEM_VERSION 10 2 0, 0x0, 0x0,
      0xE0000000, 0x08000000, 0xFFF70000, .old_8_0_0⟩,
    -- New 3DS
    ⟨true, SYSTEM_VERSION 2 45 5, SYSTEM_VERSION 8 1 0, 0xDFF83757, 0xDFF82264,
      0xE0000000, 0x10000000, 0xFFF70000, .new_8_0_0⟩,
    ⟨true, SYSTEM_VERSION 2 46 0, SYSTEM_VERSION 9 0 0, 0xDFF83837, 0xDFF82260,
      0xE0000000, 0x10000000, 0xFFF70000, .new_8_0_0⟩,
    -- memchunkhax does not apply to these, so patch addresses are set to 0x0.
    ⟨true, SYSTEM_VERSION 2 48 3, SYSTEM_VERSION 9 3 0, 0x0, 0x0,
      0xE0000000, 0x10000000, 0xFFF70000, .new_8_0_0⟩,
    ⟨true, SYSTEM_VERSION 2 49 0, SYSTEM_VERSION 9 5 0, 0x0, 0x0,
      0xE0000000, 0x10000000, 0xFFF70000, .new_8_0_0⟩,
    ⟨true, SYSTEM_VERSION 2 50 1, SYSTEM_VERSION 9 6 0, 0x0, 0x0,
      0xE0000000, 0x10000000, 0xFFF70000, .new_8_0_0⟩,
    ⟨true, SYSTEM_VERSION 2 50 7, SYSTEM_VERSION 10 0 0, 0x0, 0x0,
      0xE0000000, 0x10000000, 0xFFF70000, .new_8_0_0⟩,
    ⟨true, SYSTEM_VERSION 2 50 9, SYSTEM_VERSION 10 2 0, 0x0, 0x0,
      0xE0000000, 0x10000000, 0xFFF70000, .new_8_0_0⟩ ]

/-- The linear scan of `VersionData::GetForCurrentSystem`, given the kernel
version reported by `osGetKernelVersion` and the `IsNew3DS` answer: the first
row whose New 3DS flag and exact kernel version both match, none otherwise. -/
def GetForCurrentSystem (kernelVersion : Nat) (isNew3DS : Bool) : Option VersionData :=
  s_versionTable.find? fun entry =>
    entry.new3DS == isNew3DS && entry.kernelVersion == kernelVersion

/-- Source: `VersionData::ConvertLinearUserVAToKernelVA`.  `v2p` models
`osConvertVirtToPhys` (returning 0 on translation failure). -/
def ConvertLinearUserVAToKernelVA (vd : VersionData) (v2p : Nat → Nat)
    (address : Nat) : Option Nat :=
  let physical := v2p address
  if physical = 0 then
    none
  else if physical < fcramPhysicalAddress then
    none
  else if vd.fcramSize ≤ physical - fcramPhysicalAddress then
    none
  else
    some ((vd.fcramVirtualAddress + (physical - fcramPhysicalAddress)) % 2 ^ 32)

end VersionData

/-- Source: `IsNew3DS`, with the environment supplied explicitly: `osKernelVersion` is
what `osGetKernelVersion()` would report, and `aptCheck` is the
(result, answer) pair `APT_CheckNew3DS` would produce if queried.  Returns
(result, answer written through the out pointer, whether APT was queried). -/
def IsNew3DS (osKernelVersion kernelVersionAlreadyKnown : Nat)
    (aptCheck : CResult × Bool) : CResult × Bool × Bool :=
  let kernelVersion :=
    if kernelVersionAlreadyKnown = 0 then osKernelVersion else kernelVersionAlreadyKnown
  if SYSTEM_VERSION 2 44 6 ≤ kernelVersion then
    if aptCheck.1 ≠ 0 then
      (aptCheck.1, false, true)
    else
      (0, aptCheck.2, true)
  else
    (0, false, false)

/-- The condition under which `khaxInit` runs the legacy `MemChunkHax` machine
on a matched row: `versionData->m_kernelVersion <= SYSTEM_VERSION(2, 46, 0)`. -/
def dispatchesToLegacy (vd : VersionData) : Prop :=
  vd.kernelVersion ≤ SYSTEM_VERSION 2 46 0

/-- The condition under which `khaxInit` runs the `MemChunkHax2` vtable-hijack
machine on a matched row: the legacy test fails and
`m_kernelVersion <= SYSTEM_VERSION(2, 50, 9)`. -/
def dispatchesToVtableHijack (vd : VersionData) : Prop :=
  ¬ vd.kernelVersion ≤ SYSTEM_VERSION 2 46 0 ∧ vd.kernelVersion ≤ SYSTEM_VERSION 2 50 9

instance (vd : VersionData) : Decidable (dispatchesToLegacy vd) := by
  unfold dispatchesToLegacy; infer_instance

instance (vd : VersionData) : Decidable (dispatchesToVtableHijack vd) := by
  unfold dispatchesToVtableHijack; infer_instance

/-- The 16-byte full-access syscall ACL written by both
`MemChunkHax::Step6e_GrantSVCAccess` and `MemChunkHax2::Step3e_GrantSVCAccess`:
`"\xFE\xFF\xFF\xFF\xFF\xFF\xFF\xFF\xFF\xFF\xFF\xFF\xFF\xFF\xFF\x3F"`. -/
def s_fullAccessACL : List Nat :=
  [0xFE, 0xFF, 0xFF, 0xFF, 0xFF, 0xFF, 0xFF, 0xFF,
   0xFF, 0xFF, 0xFF, 0xFF, 0xFF, 0xFF, 0xFF, 0x3F]

/-- Bit `i` of a 128-bit syscall ACL stored as 16 little-bit-endian bytes:
syscall number `i` is allowed iff bit `i % 8` of byte `i / 8` is set. -/
def aclBit (acl : List Nat) (i : Nat) : Bool :=
  (acl.getD (i / 8) 0).testBit (i % 8)

/-- Source: `m &= ~(1u << i)` on a u32 bitmask. -/
def clearBit (m i : Nat) : Nat := m &&& (0xFFFFFFFF ^^^ (1 <<< i))

/-- Source: `STEP6_SUCCESS_RESULT = 0x1337C0DE`. -/
def STEP6_SUCCESS_RESULT : CResult := 0x1337C0DE

/-- The observable external actions of the grant-service-access step, in the
order they are issued: `svcBackdoor(Step7a_PatchPID)`, the `srvExit()` /
`srvInit()` reconnection, and `svcBackdoor(Step7b_UnpatchPID)`. -/
inductive SrvAction where
  | patchPID
  | srvReinit
  | unpatchPID
deriving DecidableEq, Repr

/-- The mutable state of a `MemChunkHax` session, together with the one piece
of kernel state the legacy exploit toggles (`threadPatched`: whether the
`svcCreateThread` instruction pair currently holds the corrupting overwrite
planted by Step 5 and removed by `Step6c_UndoCreateThreadPatch`).  Pointer
members are tracked as allocation flags; the pointed-to bytes are external. -/
structure MemChunkHaxState where
  nextStep : Int
  corrupted : Int
  overwriteMemory : Bool
  overwriteAllocated : Nat
  extraLinear : Bool
  oldACL : List Nat
  originalPID : Nat
  threadPatched : Bool
deriving DecidableEq, Repr

namespace MemChunkHax

open KHAX

/-- The `MemChunkHax` constructor's initialization list. -/
def initialState : MemChunkHaxState :=
  { nextStep := 1
    corrupted := 0
    overwriteMemory := false
    overwriteAllocated := 0
    extraLinear := false
    oldACL := []
    originalPID := 0
    threadPatched := false }

/-- Source: `MemChunkHax::Step1_Initialize`. -/
def Step1_Initialize (s : MemChunkHaxState) : CResult × MemChunkHaxState :=
  if s.nextStep ≠ 1 then
    (sequencingError, s)
  else
    (0, { s with nextStep := s.nextStep + 1 })

/-- Source: `MemChunkHax::Step2_AllocateMemory`.  `allocResult`/`allocAddr` model the
`svcControlMemory(MEMOP_ALLOC_LINEAR)` outcome and `extraOk` whether
`linearMemAlign` succeeded. -/
def Step2_AllocateMemory (allocResult allocAddr : Nat) (extraOk : Bool)
    (s : MemChunkHaxState) : CResult × MemChunkHaxState :=
  if s.nextStep ≠ 2 then
    (sequencingError, s)
  else if allocResult ≠ 0 then
    (allocResult, s)
  else
    let s := { s with overwriteMemory := true, overwriteAllocated := (1 <<< 6) - 1 }
    if allocAddr &&& 0xFFF ≠ 0 then
      (MakeError 26 7 KHAX_MODULE 1009, s)
    else if !extraOk then
      (MakeError 26 3 KHAX_MODULE 1011, s)
    else
      (0, { s with extraLinear := true, nextStep := s.nextStep + 1 })

/-- Source: `MemChunkHax::Step3_SurroundFree`.  The two oracles are the results of the
`svcControlMemory(MEMOP_FREE)` calls on pages 2 and 4; the probe writes touch
external memory only. -/
def Step3_SurroundFree (free2Result free4Result : Nat)
    (s : MemChunkHaxState) : CResult × MemChunkHaxState :=
  if s.nextStep ≠ 3 then
    (sequencingError, s)
  else if free2Result ≠ 0 then
    (free2Result, s)
  else
    let s := { s with overwriteAllocated := clearBit s.overwriteAllocated 2 }
    if free4Result ≠ 0 then
      (free4Result, s)
    else
      let s := { s with overwriteAllocated := clearBit s.overwriteAllocated 4 }
      (0, { s with nextStep := s.nextStep + 1 })

/-- Source: `MemChunkHax::Step4_VerifyExpectedLayout`.  `gspwn1`/`gspwn2` are the two
`GSPwn` results, `readNext`/`readPrev` the link fields read back from the freed
pages, and `kva2`/`kva4` what `ConvertLinearUserVAToKernelVA` yields for pages
2 and 4 (all external memory and translation state). -/
def Step4_VerifyExpectedLayout (gspwn1 readNext gspwn2 readPrev kva2 kva4 : Nat)
    (s : MemChunkHaxState) : CResult × MemChunkHaxState :=
  if s.nextStep ≠ 4 then
    (sequencingError, s)
  else if gspwn1 ≠ 0 then
    (gspwn1, s)
  else if readNext ≠ kva4 then
    (MakeError 26 5 KHAX_MODULE 1014, s)
  else if gspwn2 ≠ 0 then
    (gspwn2, s)
  else if readPrev ≠ kva2 then
    (MakeError 26 5 KHAX_MODULE 1014, s)
  else
    (0, { s with nextStep := s.nextStep + 1 })

/-- Source: `MemChunkHax::Step5_CorruptCreateThread`.  `gspwnRead`/`gspwnWrite` are the
two `GSPwn` results and `freeResult` the `svcControlMemory(MEMOP_FREE)` result
on page 1 whose coalesce plants the kernel-code overwrite (`threadPatched`). -/
def Step5_CorruptCreateThread (gspwnRead gspwnWrite freeResult : Nat)
    (s : MemChunkHaxState) : CResult × MemChunkHaxState :=
  if s.nextStep ≠ 5 then
    (sequencingError, s)
  else if gspwnRead ≠ 0 then
    (gspwnRead, s)
  else if gspwnWrite ≠ 0 then
    (gspwnWrite, s)
  else
    -- The heap is now corrupted in two ways.
    let s := { s with corrupted := s.corrupted + 2 }
    if freeResult ≠ 0 then
      (freeResult, s)
    else
      let s := { s with overwriteAllocated := clearBit s.overwriteAllocated 1,
                        threadPatched := true }
      -- An additional layer of instability because of the kernel code overwrite.
      let s := { s with corrupted := s.corrupted + 1 }
      (0, { s with nextStep := s.nextStep + 1 })

/-- Source: `MemChunkHax::Step6c_UndoCreateThreadPatch`: restores the original
instruction pair and decrements the corruption counter once. -/
def Step6c_UndoCreateThreadPatch (s : MemChunkHaxState) : CResult × MemChunkHaxState :=
  (0, { s with threadPatched := false, corrupted := s.corrupted - 1 })

/-- Source: `MemChunkHax::Step6d_FixHeapCorruption`: performs the two free-list pointer
repairs (writes to external kernel heap memory), decrementing the corruption
counter after each, i.e. by two in total. -/
def Step6d_FixHeapCorruption (s : MemChunkHaxState) : CResult × MemChunkHaxState :=
  (0, { s with corrupted := s.corrupted - 2 })

/-- Source: `MemChunkHax::Step6e_GrantSVCAccess`: saves the current thread's syscall
ACL (located through the KThread structure) into `m_oldACL`, then overwrites it
with `s_fullAccessACL`.  The thread ACL is passed in and returned explicitly. -/
def Step6e_GrantSVCAccess (threadACL : List Nat)
    (s : MemChunkHaxState) : CResult × MemChunkHaxState × List Nat :=
  (0, { s with oldACL := threadACL }, s_fullAccessACL)

/-- Source: `MemChunkHax::Step6b_SVCEntryPoint`: the kernel-mode body run by the
corrupted `svcCreateThread`, chaining 6c, 6d and 6e and returning the success
sentinel. -/
def Step6b_SVCEntryPoint (threadACL : List Nat)
    (s : MemChunkHaxState) : CResult × MemChunkHaxState × List Nat :=
  let (r1, s1) := Step6c_UndoCreateThreadPatch s
  if r1 ≠ 0 then (r1, s1, threadACL)
  else
    let (r2, s2) := Step6d_FixHeapCorruption s1
    if r2 ≠ 0 then (r2, s2, threadACL)
    else
      let (r3, s3, acl3) := Step6e_GrantSVCAccess threadACL s2
      if r3 ≠ 0 then (r3, s3, acl3)
      else (STEP6_SUCCESS_RESULT, s3, acl3)

/-- Source: `MemChunkHax::Step6_ExecuteSVCCode`.  Calling `svcCreateThread` while the
Step-5 instruction overwrite is in place transfers control to
`Step6b_SVCEntryPoint`; otherwise the syscall returns an ordinary kernel
result, modelled by the oracle `createThreadRawResult`. -/
def Step6_ExecuteSVCCode (createThreadRawResult : Nat) (threadACL : List Nat)
    (s : MemChunkHaxState) : CResult × MemChunkHaxState × List Nat :=
  if s.nextStep ≠ 6 then
    (sequencingError, s, threadACL)
  else
    let (result, s1, acl1) :=
      if s.threadPatched then Step6b_SVCEntryPoint threadACL s
      else (createThreadRawResult, s, threadACL)
    if result ≠ STEP6_SUCCESS_RESULT then
      -- If the result was 0, something actually went wrong.
      if result = 0 then (MakeError 27 11 KHAX_MODULE 1023, s1, acl1)
      else (result, s1, acl1)
    else
      (0, { s1 with nextStep := s1.nextStep + 1 }, acl1)

/-- Source: `MemChunkHax::Step7_GrantServiceAccess`.  The three oracles are the
(result, pid) pairs of the `svcGetProcessId` calls; the returned list is the
trace of PID-patching and service-reconnect actions issued before returning. -/
def Step7_GrantServiceAccess (getPid1 getPid2 getPid3 : Nat × Nat)
    (s : MemChunkHaxState) : CResult × MemChunkHaxState × List SrvAction :=
  if s.nextStep ≠ 7 then
    (sequencingError, s, [])
  else if getPid1.1 ≠ 0 then
    (getPid1.1, s, [])
  else
    let s := { s with originalPID := getPid1.2 }
    -- svcBackdoor(Step7a_PatchPID)
    if getPid2.1 ≠ 0 then
      -- Attempt patching back anyway, for stability reasons.
      (getPid2.1, s, [.patchPID, .unpatchPID])
    else if getPid2.2 ≠ 0 then
      (MakeError 27 11 KHAX_MODULE 1023, s, [.patchPID])
    else if getPid3.1 ≠ 0 then
      (getPid3.1, s, [.patchPID, .srvReinit, .unpatchPID])
    else if getPid3.2 ≠ s.originalPID then
      (MakeError 27 11 KHAX_MODULE 1023, s, [.patchPID, .srvReinit, .unpatchPID])
    else
      (0, { s with nextStep := s.nextStep + 1 }, [.patchPID, .srvReinit, .unpatchPID])

/-- Outcome of running `MemChunkHax::~MemChunkHax`: either the deliberate
infinite `svcSleepThread` loop, or normal completion having issued
`MEMOP_FREE` on the listed overwrite pages. -/
inductive DtorOutcome where
  | freeze
  | completes (freedPages : List Nat)
deriving DecidableEq, Repr

/-- The overwrite pages the destructor's loop frees: pages `0 ≤ x < 6` whose
bit is still set in `m_overwriteAllocated`, and none at all when
`m_overwriteMemory` is null. -/
def dtorFreeList (s : MemChunkHaxState) : List Nat :=
  if s.overwriteMemory then
    (List.range 6).filter fun x => s.overwriteAllocated.testBit x
  else
    []

/-- Source: `MemChunkHax::~MemChunkHax`: freezes forever when `m_corrupted > 0`,
otherwise frees the still-allocated overwrite pages (and the extra linear
buffer, which is not one of the six pages). -/
def destructor (s : MemChunkHaxState) : DtorOutcome :=
  if 0 < s.corrupted then .freeze
  else .completes (dtorFreeList s)

/-- States of the session (plus the patched-instruction flag) reachable from
construction through any sequence of step invocations with any oracle
results. -/
inductive Reachable : MemChunkHaxState → Prop where
  | init : Reachable initialState
  | step1 {s} : Reachable s → Reachable (Step1_Initialize s).2
  | step2 {s} (ar aa : Nat) (eo : Bool) :
      Reachable s → Reachable (Step2_AllocateMemory ar aa eo s).2
  | step3 {s} (f2 f4 : Nat) :
      Reachable s → Reachable (Step3_SurroundFree f2 f4 s).2
  | step4 {s} (g1 rn g2 rp k2 k4 : Nat) :
      Reachable s → Reachable (Step4_VerifyExpectedLayout g1 rn g2 rp k2 k4 s).2
  | step5 {s} (g1 g2 fr : Nat) :
      Reachable s → Reachable (Step5_CorruptCreateThread g1 g2 fr s).2
  | step6 {s} (ctr : Nat) (acl : List Nat) :
      Reachable s → Reachable (Step6_ExecuteSVCCode ctr acl s).2.1
  | step7 {s} (p1 p2 p3 : Nat × Nat) :
      Reachable s → Reachable (Step7_GrantServiceAccess p1 p2 p3 s).2.1

/-- The step invariant: the corruption counter never goes negative, a planted
instruction patch always coexists with at least the three corruption layers it
entails, and the allocation bitmask is empty while no overwrite memory is
held. -/
def StateInv (s : MemChunkHaxState) : Prop :=
  0 ≤ s.corrupted
  ∧ (s.threadPatched = true → 3 ≤ s.corrupted)
  ∧ (s.overwriteMemory = false → s.overwriteAllocated = 0)

end MemChunkHax

/-- Source: `PAGE_SIZE = 0x1000`. -/
def PAGE_SIZE : Nat := 0x1000

/-- The mutable state of a `MemChunkHax2` session (the class's data members,
with pointer/handle members tracked as values or allocation flags).  `-1`
sentinels (`m_mapResult`, `m_kernelResult`) are carried as their u32 pattern
`0xFFFFFFFF`.  The class declares no corruption-level counter. -/
structure MemChunkHax2State where
  nextStep : Int
  mapAddr : Nat
  mapSize : Nat
  mapResult : Nat
  isolatedPage : Nat
  isolatingPage : Nat
  kObjHandle : Nat
  kObjAddr : Nat
  backup : Bool
  delayThread : Bool
  oldVtable : Bool
  kernelResult : Nat
  oldACL : List Nat
  originalPID : Nat
deriving DecidableEq, Repr

namespace MemChunkHax2

open KHAX

/-- The `MemChunkHax2` constructor's initialization list; `heapEnd` is
`__ctru_heap + __ctru_heap_size`. -/
def initialState (heapEnd : Nat) : MemChunkHax2State :=
  { nextStep := 1
    mapAddr := heapEnd
    mapSize := PAGE_SIZE * 2
    mapResult := 0xFFFFFFFF
    isolatedPage := 0
    isolatingPage := 0
    kObjHandle := 0
    kObjAddr := 0
    backup := false
    delayThread := false
    oldVtable := false
    kernelResult := 0xFFFFFFFF
    oldACL := []
    originalPID := 0 }

/-- Source: `MemChunkHax2::Step1_Initialize`: raises the app CPU-time limit so helper
threads can run on the second core; `aptResult` models
`APT_SetAppCpuTimeLimit(30)`. -/
def Step1_Initialize (aptResult : Nat) (s : MemChunkHax2State) :
    CResult × MemChunkHax2State :=
  if s.nextStep ≠ 1 then
    (sequencingError, s)
  else if R_FAILED aptResult then
    (aptResult, s)
  else
    (0, { s with nextStep := s.nextStep + 1 })

/-- Source: `MemChunkHax2::Step2_IsolatePage`.  `allocIsolated`/`allocIsolating` are
the (result, address) pairs of the two `MEMOP_ALLOC` calls and `freeIsolated`
the result of the `MEMOP_FREE` on the isolated page. -/
def Step2_IsolatePage (allocIsolated allocIsolating : Nat × Nat)
    (freeIsolated : Nat) (s : MemChunkHax2State) : CResult × MemChunkHax2State :=
  if s.nextStep ≠ 2 then
    (sequencingError, s)
  else if R_FAILED allocIsolated.1 then
    (allocIsolated.1, s)
  else
    let s := { s with isolatedPage := allocIsolated.2 }
    if R_FAILED allocIsolating.1 then
      (allocIsolating.1, s)
    else
      let s := { s with isolatingPage := allocIsolating.2 }
      if R_FAILED freeIsolated then
        (freeIsolated, s)
      else
        let s := { s with isolatedPage := 0 }
        (0, { s with nextStep := s.nextStep + 1 })

/-- Source: `MemChunkHax2::Step3e_GrantSVCAccess`: identical to the legacy
`Step6e_GrantSVCAccess` — saves the current thread's syscall ACL into
`m_oldACL`, then overwrites it with `s_fullAccessACL`. -/
def Step3e_GrantSVCAccess (threadACL : List Nat)
    (s : MemChunkHax2State) : CResult × MemChunkHax2State × List Nat :=
  (0, { s with oldACL := threadACL }, s_fullAccessACL)

/-- Source: `MemChunkHax2::Step3_OverwriteVtable`.  The deliberately raced
`svcControlMemory` and the two helper threads are modelled by their
sequentially observable effects: `createObj` is the (result, kernel address)
pair of `svcCreateEventKAddr`, `backupOk`/`delayOk`/`allocOk` whether
`malloc`/`threadCreate` succeeded, `raceEarly` whether `m_mapResult` was
already set when the backup completed (race lost), and `mapResult` the final
`svcControlMemory` result.  Closing the handle runs the hijacked vtable slot:
the original destructor, then `Step3d_SVCEntryPoint`, which stores the
`Step3e_GrantSVCAccess` result (always 0) into `m_kernelResult`. -/
def Step3_OverwriteVtable (createObj : Nat × Nat)
    (backupOk delayOk allocOk : Bool) (raceEarly : Bool) (mapResult : Nat)
    (threadACL : List Nat) (s : MemChunkHax2State) :
    CResult × MemChunkHax2State × List Nat :=
  if s.nextStep ≠ 3 then
    (sequencingError, s, threadACL)
  else if R_FAILED createObj.1 then
    (createObj.1, s, threadACL)
  else
    let s := { s with kObjHandle := 1, kObjAddr := createObj.2 }
    if !backupOk then
      (MakeError 26 3 KHAX_MODULE 1011, s, threadACL)
    else
      let s := { s with backup := true }
      if !delayOk then
        (MakeError 26 3 KHAX_MODULE 1011, s, threadACL)
      else
        let s := { s with delayThread := true }
        if !allocOk then
          (MakeError 26 3 KHAX_MODULE 1011, s, threadACL)
        else if raceEarly then
          (MakeError 26 3 KHAX_MODULE 1003, s, threadACL)
        else
          let s := { s with mapResult := mapResult }
          if R_FAILED mapResult then
            (mapResult, s, threadACL)
          else
            let s := { s with oldVtable := true }
            let (r3e, s2, acl2) := Step3e_GrantSVCAccess threadACL s
            let s := { s2 with kernelResult := r3e, kObjHandle := 0 }
            if s.kernelResult ≠ 0 then
              (s.kernelResult, s, acl2)
            else
              (0, { s with nextStep := s.nextStep + 1 }, acl2)

/-- Source: `MemChunkHax2::Step4_GrantServiceAccess`: textually the same protocol as
the legacy `Step7_GrantServiceAccess`, on the `MemChunkHax2` session. -/
def Step4_GrantServiceAccess (getPid1 getPid2 getPid3 : Nat × Nat)
    (s : MemChunkHax2State) : CResult × MemChunkHax2State × List SrvAction :=
  if s.nextStep ≠ 4 then
    (sequencingError, s, [])
  else if getPid1.1 ≠ 0 then
    (getPid1.1, s, [])
  else
    let s := { s with originalPID := getPid1.2 }
    -- svcBackdoor(Step4a_PatchPID)
    if getPid2.1 ≠ 0 then
      -- Attempt patching back anyway, for stability reasons.
      (getPid2.1, s, [.patchPID, .unpatchPID])
    else if getPid2.2 ≠ 0 then
      (MakeError 27 11 KHAX_MODULE 1023, s, [.patchPID])
    else if getPid3.1 ≠ 0 then
      (getPid3.1, s, [.patchPID, .srvReinit, .unpatchPID])
    else if getPid3.2 ≠ s.originalPID then
      (MakeError 27 11 KHAX_MODULE 1023, s, [.patchPID, .srvReinit, .unpatchPID])
    else
      (0, { s with nextStep := s.nextStep + 1 }, [.patchPID, .srvReinit, .unpatchPID])

/-- The corruption level a `MemChunkHax2` session tracks.  The class declares
no corruption-level counter member at all (unlike `MemChunkHax` there is no
`m_corrupted` field and no step ever marks an invariant as pending repair), so
the tracked corruption level is identically zero. -/
def corruptionLevel (_ : MemChunkHax2State) : Int := 0

end MemChunkHax2

/-- The first row of the version table, written out (Old 3DS, kernel 2.34,
nominal 4.1.0), used as a concrete descriptor in example instantiations. -/
def tableRow0 : VersionData :=
  ⟨false, SYSTEM_VERSION 2 34 0, SYSTEM_VERSION 4 1 0, 0xEFF83C9F, 0xEFF827CC,
    0xF0000000, 0x08000000, 0xFFF00000, .old_1_0_0⟩

/-- A concrete injective virtual-to-physical translation placing the user
address `x` at physical address `0x20000000 + x` (inside FCRAM). -/
def exampleV2P : Nat → Nat := fun x => x + 0x20000000

/-- States along one concrete fully-successful legacy run (every oracle
reporting success and consistent heap metadata). -/
def runW1 : MemChunkHaxState := (MemChunkHax.Step1_Initialize MemChunkHax.initialState).2

def runW2 : MemChunkHaxState := (MemChunkHax.Step2_AllocateMemory 0 0 true runW1).2

def runW3 : MemChunkHaxState := (MemChunkHax.Step3_SurroundFree 0 0 runW2).2

def runW4 : MemChunkHaxState := (MemChunkHax.Step4_VerifyExpectedLayout 0 7 0 5 5 7 runW3).2

def runW5 : MemChunkHaxState := (MemChunkHax.Step5_CorruptCreateThread 0 0 0 runW4).2

def runW6 : MemChunkHaxState := (MemChunkHax.Step6_ExecuteSVCCode 0 [] runW5).2.1

def runW7 : MemChunkHaxState :=
  (MemChunkHax.Step7_GrantServiceAccess (0, 42) (0, 0) (0, 42) runW6).2.1

/-- A reachable state in which Step 5's corrupting `GSPwn` succeeded but the
page-1 free failed (result 9): the session is left with corruption level 2. -/
def corruptedAbortState : MemChunkHaxState :=
  (MemChunkHax.Step5_CorruptCreateThread 0 0 9 runW4).2

/-- A session state about to run the grant-service-access step. -/
def c7State : MemChunkHaxState := { MemChunkHax.initialState with nextStep := 7 }

namespace MemChunkHax

theorem stateInv_init : StateInv initialState := by
  refine ⟨by decide, by decide, fun _ => rfl⟩

/-- The kernel-mode body always succeeds: it undoes the instruction patch,
repairs the heap (corruption counter down by three in total), saves the ACL
and writes the full-access mask. -/
theorem step6b_eq (acl : List Nat) (s : MemChunkHaxState) :
    Step6b_SVCEntryPoint acl s =
      (STEP6_SUCCESS_RESULT,
       { s with threadPatched := false, corrupted := s.corrupted - 1 - 2, oldACL := acl },
       s_fullAccessACL) := rfl

theorem reachable_inv {s : MemChunkHaxState} (h : Reachable s) : StateInv s := by
  induction h with
  | init => exact stateInv_init
  | @step1 s hr ih =>
      obtain ⟨h1, h2, h3⟩ := ih
      unfold Step1_Initialize
      split
      · exact ⟨h1, h2, h3⟩
      · exact ⟨h1, h2, h3⟩
  | @step2 s ar aa eo hr ih =>
      obtain ⟨h1, h2, h3⟩ := ih
      unfold Step2_AllocateMemory
      split
      · exact ⟨h1, h2, h3⟩
      · split
        · exact ⟨h1, h2, h3⟩
        · split
          · exact ⟨h1, h2, fun hm => by simp at hm⟩
          · split
            · exact ⟨h1, h2, fun hm => by simp at hm⟩
            · exact ⟨h1, h2, fun hm => by simp at hm⟩
  | @step3 s f2 f4 hr ih =>
      obtain ⟨h1, h2, h3⟩ := ih
      unfold Step3_SurroundFree
      split
      · exact ⟨h1, h2, h3⟩
      · split
        · exact ⟨h1, h2, h3⟩
        · split
          · exact ⟨h1, h2, fun hm =>
              (by simp [clearBit, h3 hm] : clearBit s.overwriteAllocated 2 = 0)⟩
          · exact ⟨h1, h2, fun hm =>
              (by simp [clearBit, h3 hm] :
                clearBit (clearBit s.overwriteAllocated 2) 4 = 0)⟩
  | @step4 s g1 rn g2 rp k2 k4 hr ih =>
      obtain ⟨h1, h2, h3⟩ := ih
      unfold Step4_VerifyExpectedLayout
      split
      · exact ⟨h1, h2, h3⟩
      · split
        · exact ⟨h1, h2, h3⟩
        · split
          · exact ⟨h1, h2, h3⟩
          · split
            · exact ⟨h1, h2, h3⟩
            · split
              · exact ⟨h1, h2, h3⟩
              · exact ⟨h1, h2, h3⟩
  | @step5 s g1 g2 fr hr ih =>
      obtain ⟨h1, h2, h3⟩ := ih
      unfold Step5_CorruptCreateThread
      split
      · exact ⟨h1, h2, h3⟩
      · split
        · exact ⟨h1, h2, h3⟩
        · split
          · exact ⟨h1, h2, h3⟩
          · split
            · exact ⟨(by omega : (0 : Int) ≤ s.corrupted + 2),
                fun hp => (by have := h2 hp; omega : (3 : Int) ≤ s.corrupted + 2),
                fun hm => h3 hm⟩
            · exact ⟨(by omega : (0 : Int) ≤ s.corrupted + 2 + 1),
                fun _ => (by omega : (3 : Int) ≤ s.corrupted + 2 + 1),
                fun hm => (by simp [clearBit, h3 hm] :
                  clearBit s.overwriteAllocated 1 = 0)⟩
  | @step6 s ctr acl hr ih =>
      obtain ⟨h1, h2, h3⟩ := ih
      unfold Step6_ExecuteSVCCode
      by_cases hp : s.threadPatched = true
      · have hc3 := h2 hp
        simp only [hp, if_true, step6b_eq]
        split
        · exact ⟨h1, h2, h3⟩
        · norm_num [STEP6_SUCCESS_RESULT]
          exact ⟨(by omega : (0 : Int) ≤ s.corrupted - 1 - 2),
            fun hpf => (by simp at hpf),
            fun hm => h3 hm⟩
      · have hp2 : s.threadPatched = false := by simpa using hp
        simp only [hp2, Bool.false_eq_true, if_false]
        split
        · exact ⟨h1, h2, h3⟩
        · split
          · split
            · exact ⟨h1, h2, h3⟩
            · exact ⟨h1, h2, h3⟩
          · exact ⟨h1, fun hpf => absurd hpf (by simp), h3⟩
  | @step7 s p1 p2 p3 hr ih =>
      obtain ⟨h1, h2, h3⟩ := ih
      simp only [Step7_GrantServiceAccess]
      split
      · exact ⟨h1, h2, h3⟩
      · split
        · exact ⟨h1, h2, h3⟩
        · split
          · exact ⟨h1, h2, h3⟩
          · split
            · exact ⟨h1, h2, h3⟩
            · split
              · exact ⟨h1, h2, h3⟩
              · split
                · exact ⟨h1, h2, h3⟩
                · exact ⟨h1, h2, h3⟩

end MemChunkHax

/-- C2: every row of the static version table is returned by
`GetForCurrentSystem` exactly when queried with its own (kernel version,
New 3DS flag) pair, and every pair matching no row yields `none` — a strict
linear scan with no fuzzy matching. -/
theorem versionTable_lookup_exact :
    (∀ row ∈ VersionData.s_versionTable,
        VersionData.GetForCurrentSystem row.kernelVersion row.new3DS = some row)
    ∧ ∀ kv n3,
        (∀ row ∈ VersionData.s_versionTable,
          ¬(row.kernelVersion = kv ∧ row.new3DS = n3)) →
        VersionData.GetForCurrentSystem kv n3 = none := by
  constructor
  · decide
  · intro kv n3 h
    unfold VersionData.GetForCurrentSystem
    rw [List.find?_eq_none]
    intro x hx
    simp only [Bool.and_eq_true, beq_iff_eq, not_and]
    intro h1 h2
    exact absurd ⟨h2, h1⟩ (h x hx)

/-- Witness for `versionTable_lookup_exact`: the version one below the lowest
table entry is not found (with either hardware-variant flag value). -/
theorem versionTable_lookup_exact_witness :
    VersionData.GetForCurrentSystem (SYSTEM_VERSION 2 34 0 - 1) false = none :=
  versionTable_lookup_exact.2 (SYSTEM_VERSION 2 34 0 - 1) false (by decide)

/-- C8: on every row the version table recognizes, `khaxInit`'s dispatch
comparison sends execution to the vtable-hijack machine exactly on the rows
whose thread-patch and syscall-patch addresses are both null, and to the
legacy machine exactly on the rows where both are non-null. -/
theorem khaxInit_dispatch_iff_null_patches :
    ∀ vd ∈ VersionData.s_versionTable,
      (dispatchesToVtableHijack vd ↔
        (vd.threadPatchAddress = 0 ∧ vd.syscallPatchAddress = 0))
      ∧ (dispatchesToLegacy vd ↔
        (vd.threadPatchAddress ≠ 0 ∧ vd.syscallPatchAddress ≠ 0)) := by
  decide

/-- Witness for `khaxInit_dispatch_iff_null_patches` at the first table row. -/
theorem khaxInit_dispatch_iff_null_patches_witness :
    dispatchesToLegacy tableRow0 ↔
      (tableRow0.threadPatchAddress ≠ 0 ∧ tableRow0.syscallPatchAddress ≠ 0) :=
  (khaxInit_dispatch_iff_null_patches tableRow0 (by decide)).2

/-- C9: both variants' privilege-grant primitives return the thread's previous
syscall ACL as the saved copy and install `s_fullAccessACL`, whose 128 bits
are all set except those of syscall numbers 0x00, 0x7E and 0x7F. -/
theorem grantSVCAccess_saves_then_writes_full_acl :
    (∀ (acl : List Nat) (s : MemChunkHaxState),
        MemChunkHax.Step6e_GrantSVCAccess acl s =
          (0, { s with oldACL := acl }, s_fullAccessACL))
    ∧ (∀ (acl : List Nat) (s : MemChunkHax2State),
        MemChunkHax2.Step3e_GrantSVCAccess acl s =
          (0, { s with oldACL := acl }, s_fullAccessACL))
    ∧ ∀ i < 128,
        (aclBit s_fullAccessACL i = true ↔ ¬(i = 0x00 ∨ i = 0x7E ∨ i = 0x7F)) := by
  refine ⟨fun acl s => rfl, fun acl s => rfl, ?_⟩
  decide

/-- Witness for `grantSVCAccess_saves_then_writes_full_acl`: syscall 1 is
granted by the installed mask. -/
theorem grantSVCAccess_saves_then_writes_full_acl_witness :
    aclBit s_fullAccessACL 1 = true :=
  (grantSVCAccess_saves_then_writes_full_acl.2.2 1 (by decide)).mpr (by decide)

/-- C10: `IsNew3DS` answers false with success and without querying APT for
every effective kernel version strictly below `SYSTEM_VERSION(2, 44, 6)`; at
or above that threshold it queries APT, and an APT failure is propagated with
the answer forced to false. -/
theorem isNew3DS_version_gate :
    ∀ (osv known : Nat) (apt : CResult × Bool),
      ((if known = 0 then osv else known) < SYSTEM_VERSION 2 44 6 →
        IsNew3DS osv known apt = (0, false, false))
      ∧ (SYSTEM_VERSION 2 44 6 ≤ (if known = 0 then osv else known) →
          (IsNew3DS osv known apt).2.2 = true
          ∧ (apt.1 ≠ 0 → IsNew3DS osv known apt = (apt.1, false, true))) := by
  intro osv known apt
  constructor
  · intro h
    simp only [IsNew3DS]
    rw [if_neg (not_le.mpr h)]
  · intro h
    simp only [IsNew3DS]
    rw [if_pos h]
    constructor
    · by_cases ha : apt.1 ≠ 0
      · rw [if_pos ha]
      · rw [if_neg ha]
    · intro ha
      rw [if_pos ha]

/-- Witness for `isNew3DS_version_gate`: on kernel 2.40 (nominal 7.2.0) the
answer is false, the result 0, and APT is not queried, even though the APT
oracle would report an error. -/
theorem isNew3DS_version_gate_witness :
    IsNew3DS 0 (SYSTEM_VERSION 2 40 0) (1, true) = (0, false, false) :=
  (isNew3DS_version_gate 0 (SYSTEM_VERSION 2 40 0) (1, true)).1 (by decide)

/-- On a successful translation (nonzero physical address inside the FCRAM
range) the conversion returns the FCRAM kernel virtual base plus the offset of
the physical address into FCRAM. -/
theorem convert_some_of_inrange (vd : VersionData) (v2p : Nat → Nat) (a : Nat)
    (h0 : v2p a ≠ 0) (hlo : VersionData.fcramPhysicalAddress ≤ v2p a)
    (hhi : v2p a - VersionData.fcramPhysicalAddress < vd.fcramSize) :
    vd.ConvertLinearUserVAToKernelVA v2p a =
      some ((vd.fcramVirtualAddress +
        (v2p a - VersionData.fcramPhysicalAddress)) % 2 ^ 32) := by
  simp only [VersionData.ConvertLinearUserVAToKernelVA]
  rw [if_neg h0, if_neg (not_lt.mpr hlo), if_neg (not_le.mpr hhi)]

/-- C5: `ConvertLinearUserVAToKernelVA` is a partial injective function.  On a
user address whose translation succeeds with a physical address inside
`[fcramPhysicalAddress, fcramPhysicalAddress + fcramSize)` it returns the
physical address shifted by the constant offset
`fcramVirtualAddress - fcramPhysicalAddress` (stated additively to avoid
truncated subtraction), so addresses with distinct physical translations in
range yield distinct kernel addresses — injectivity of the composite relies
on injectivity of the host's virtual-to-physical translation, taken as a
hypothesis.  On a failed translation or an out-of-range physical address it
returns `none`. -/
theorem convertLinearUserVA_partial_injective :
    (∀ (vd : VersionData) (v2p : Nat → Nat) (a : Nat),
        v2p a ≠ 0 → VersionData.fcramPhysicalAddress ≤ v2p a →
        v2p a - VersionData.fcramPhysicalAddress < vd.fcramSize →
        ∃ kva, vd.ConvertLinearUserVAToKernelVA v2p a = some kva
          ∧ (kva + VersionData.fcramPhysicalAddress) % 2 ^ 32
              = (v2p a + vd.fcramVirtualAddress) % 2 ^ 32)
    ∧ (∀ (vd : VersionData) (v2p : Nat → Nat) (a b : Nat),
        vd.fcramSize ≤ 2 ^ 32 →
        (∀ x y, v2p x = v2p y → x = y) → a ≠ b →
        v2p a ≠ 0 → VersionData.fcramPhysicalAddress ≤ v2p a →
        v2p a - VersionData.fcramPhysicalAddress < vd.fcramSize →
        v2p b ≠ 0 → VersionData.fcramPhysicalAddress ≤ v2p b →
        v2p b - VersionData.fcramPhysicalAddress < vd.fcramSize →
        vd.ConvertLinearUserVAToKernelVA v2p a ≠ vd.ConvertLinearUserVAToKernelVA v2p b)
    ∧ (∀ (vd : VersionData) (v2p : Nat → Nat) (a : Nat),
        (v2p a = 0 ∨ v2p a < VersionData.fcramPhysicalAddress ∨
          vd.fcramSize ≤ v2p a - VersionData.fcramPhysicalAddress) →
        vd.ConvertLinearUserVAToKernelVA v2p a = none) := by
  refine ⟨?_, ?_, ?_⟩
  · intro vd v2p a h0 hlo hhi
    refine ⟨_, convert_some_of_inrange vd v2p a h0 hlo hhi, ?_⟩
    omega
  · intro vd v2p a b hsz hinj hab h0a hloa hhia h0b hlob hhib heq
    rw [convert_some_of_inrange vd v2p a h0a hloa hhia,
      convert_some_of_inrange vd v2p b h0b hlob hhib] at heq
    have hne : v2p a ≠ v2p b := fun hpp => hab (hinj a b hpp)
    simp only [Option.some.injEq] at heq
    omega
  · intro vd v2p a h
    simp only [VersionData.ConvertLinearUserVAToKernelVA]
    split_ifs with hc1 hc2 hc3
    · rfl
    · rfl
    · rfl
    · exfalso
      rcases h with h | h | h
      · exact hc1 h
      · exact hc2 h
      · exact hc3 h

/-- Witness for `convertLinearUserVA_partial_injective`: with the example
injective translation, user addresses 0 and 1 (physical `0x20000000` and
`0x20000001`) convert to distinct kernel addresses on the first table row. -/
theorem convertLinearUserVA_partial_injective_witness :
    tableRow0.ConvertLinearUserVAToKernelVA exampleV2P 0 ≠
      tableRow0.ConvertLinearUserVAToKernelVA exampleV2P 1 :=
  convertLinearUserVA_partial_injective.2.1 tableRow0 exampleV2P 0 1
    (by decide) (fun x y h => by simpa [exampleV2P] using h) (by decide)
    (by decide) (by decide) (by decide) (by decide) (by decide) (by decide)

/-- C3: every step method of both state machines, invoked in a session state
whose next-step counter differs from the step's own number, returns the
sequencing-error code `MakeError(28, 5, 254, 1016)` and returns the session
state unchanged (issuing no external actions). -/
theorem steps_reject_out_of_order :
    (∀ s : MemChunkHaxState, s.nextStep ≠ 1 →
        MemChunkHax.Step1_Initialize s = (sequencingError, s))
    ∧ (∀ (ar aa : Nat) (eo : Bool) (s : MemChunkHaxState), s.nextStep ≠ 2 →
        MemChunkHax.Step2_AllocateMemory ar aa eo s = (sequencingError, s))
    ∧ (∀ (f2 f4 : Nat) (s : MemChunkHaxState), s.nextStep ≠ 3 →
        MemChunkHax.Step3_SurroundFree f2 f4 s = (sequencingError, s))
    ∧ (∀ (g1 rn g2 rp k2 k4 : Nat) (s : MemChunkHaxState), s.nextStep ≠ 4 →
        MemChunkHax.Step4_VerifyExpectedLayout g1 rn g2 rp k2 k4 s = (sequencingError, s))
    ∧ (∀ (g1 g2 fr : Nat) (s : MemChunkHaxState), s.nextStep ≠ 5 →
        MemChunkHax.Step5_CorruptCreateThread g1 g2 fr s = (sequencingError, s))
    ∧ (∀ (ctr : Nat) (acl : List Nat) (s : MemChunkHaxState), s.nextStep ≠ 6 →
        MemChunkHax.Step6_ExecuteSVCCode ctr acl s = (sequencingError, s, acl))
    ∧ (∀ (p1 p2 p3 : Nat × Nat) (s : MemChunkHaxState), s.nextStep ≠ 7 →
        MemChunkHax.Step7_GrantServiceAccess p1 p2 p3 s = (sequencingError, s, []))
    ∧ (∀ (aptR : Nat) (s : MemChunkHax2State), s.nextStep ≠ 1 →
        MemChunkHax2.Step1_Initialize aptR s = (sequencingError, s))
    ∧ (∀ (r1 r2 : Nat × Nat) (r3 : Nat) (s : MemChunkHax2State), s.nextStep ≠ 2 →
        MemChunkHax2.Step2_IsolatePage r1 r2 r3 s = (sequencingError, s))
    ∧ (∀ (co : Nat × Nat) (bo dl al re : Bool) (mr : Nat) (acl : List Nat)
        (s : MemChunkHax2State), s.nextStep ≠ 3 →
        MemChunkHax2.Step3_OverwriteVtable co bo dl al re mr acl s = (sequencingError, s, acl))
    ∧ (∀ (p1 p2 p3 : Nat × Nat) (s : MemChunkHax2State), s.nextStep ≠ 4 →
        MemChunkHax2.Step4_GrantServiceAccess p1 p2 p3 s = (sequencingError, s, [])) := by
  refine ⟨?_, ?_, ?_, ?_, ?_, ?_, ?_, ?_, ?_, ?_, ?_⟩
  · intro s h; simp [MemChunkHax.Step1_Initialize, h]
  · intro ar aa eo s h; simp [MemChunkHax.Step2_AllocateMemory, h]
  · intro f2 f4 s h; simp [MemChunkHax.Step3_SurroundFree, h]
  · intro g1 rn g2 rp k2 k4 s h; simp [MemChunkHax.Step4_VerifyExpectedLayout, h]
  · intro g1 g2 fr s h; simp [MemChunkHax.Step5_CorruptCreateThread, h]
  · intro ctr acl s h; simp [MemChunkHax.Step6_ExecuteSVCCode, h]
  · intro p1 p2 p3 s h; simp [MemChunkHax.Step7_GrantServiceAccess, h]
  · intro aptR s h; simp [MemChunkHax2.Step1_Initialize, h]
  · intro r1 r2 r3 s h; simp [MemChunkHax2.Step2_IsolatePage, h]
  · intro co bo dl al re mr acl s h; simp [MemChunkHax2.Step3_OverwriteVtable, h]
  · intro p1 p2 p3 s h; simp [MemChunkHax2.Step4_GrantServiceAccess, h]

/-- Witness for `steps_reject_out_of_order`: calling step 2 on a freshly
constructed session (next step 1) fails with the sequencing error and leaves
the state untouched. -/
theorem steps_reject_out_of_order_witness :
    MemChunkHax.Step2_AllocateMemory 0 0 true MemChunkHax.initialState
      = (sequencingError, MemChunkHax.initialState) :=
  steps_reject_out_of_order.2.1 0 0 true MemChunkHax.initialState (by decide)

/-- Step 1 never touches the corruption counter or the instruction patch. -/
theorem step1_frame (s : MemChunkHaxState) :
    (MemChunkHax.Step1_Initialize s).2.corrupted = s.corrupted
    ∧ (MemChunkHax.Step1_Initialize s).2.threadPatched = s.threadPatched := by
  unfold MemChunkHax.Step1_Initialize
  split
  all_goals exact ⟨rfl, rfl⟩

/-- Step 2 never touches the corruption counter or the instruction patch. -/
theorem step2_frame (ar aa : Nat) (eo : Bool) (s : MemChunkHaxState) :
    (MemChunkHax.Step2_AllocateMemory ar aa eo s).2.corrupted = s.corrupted
    ∧ (MemChunkHax.Step2_AllocateMemory ar aa eo s).2.threadPatched = s.threadPatched := by
  unfold MemChunkHax.Step2_AllocateMemory
  repeat' split
  all_goals exact ⟨rfl, rfl⟩

/-- Step 3 never touches the corruption counter or the instruction patch. -/
theorem step3_frame (f2 f4 : Nat) (s : MemChunkHaxState) :
    (MemChunkHax.Step3_SurroundFree f2 f4 s).2.corrupted = s.corrupted
    ∧ (MemChunkHax.Step3_SurroundFree f2 f4 s).2.threadPatched = s.threadPatched := by
  unfold MemChunkHax.Step3_SurroundFree
  repeat' split
  all_goals exact ⟨rfl, rfl⟩

/-- Step 4 never touches the corruption counter or the instruction patch. -/
theorem step4_frame (g1 rn g2 rp k2 k4 : Nat) (s : MemChunkHaxState) :
    (MemChunkHax.Step4_VerifyExpectedLayout g1 rn g2 rp k2 k4 s).2.corrupted = s.corrupted
    ∧ (MemChunkHax.Step4_VerifyExpectedLayout g1 rn g2 rp k2 k4 s).2.threadPatched
        = s.threadPatched := by
  unfold MemChunkHax.Step4_VerifyExpectedLayout
  repeat' split
  all_goals exact ⟨rfl, rfl⟩

/-- Step 7 never touches the corruption counter. -/
theorem step7_frame (p1 p2 p3 : Nat × Nat) (s : MemChunkHaxState) :
    (MemChunkHax.Step7_GrantServiceAccess p1 p2 p3 s).2.1.corrupted = s.corrupted := by
  simp only [MemChunkHax.Step7_GrantServiceAccess]
  repeat' split
  all_goals rfl

/-- A successful Step 5 raises the corruption counter by exactly 3 (2 for the
heap fields, then 1 for the patched instruction) and leaves the
`svcCreateThread` overwrite in place. -/
theorem step5_ok (g1 g2 fr : Nat) (s : MemChunkHaxState)
    (h : (MemChunkHax.Step5_CorruptCreateThread g1 g2 fr s).1 = 0) :
    (MemChunkHax.Step5_CorruptCreateThread g1 g2 fr s).2.corrupted = s.corrupted + 3
    ∧ (MemChunkHax.Step5_CorruptCreateThread g1 g2 fr s).2.threadPatched = true := by
  by_cases hg : s.nextStep ≠ 5
  · exfalso
    simp only [MemChunkHax.Step5_CorruptCreateThread, if_pos hg] at h
    exact absurd h (by decide)
  · by_cases hg1 : g1 ≠ 0
    · exfalso
      simp only [MemChunkHax.Step5_CorruptCreateThread, if_neg hg, if_pos hg1] at h
      exact hg1 h
    · by_cases hg2 : g2 ≠ 0
      · exfalso
        simp only [MemChunkHax.Step5_CorruptCreateThread, if_neg hg, if_neg hg1,
          if_pos hg2] at h
        exact hg2 h
      · by_cases hfr : fr ≠ 0
        · exfalso
          simp only [MemChunkHax.Step5_CorruptCreateThread, if_neg hg, if_neg hg1,
            if_neg hg2, if_pos hfr] at h
          exact hfr h
        · simp only [MemChunkHax.Step5_CorruptCreateThread, if_neg hg, if_neg hg1,
            if_neg hg2, if_neg hfr]
          exact ⟨(by omega : s.corrupted + 2 + 1 = s.corrupted + 3), by trivial⟩

/-- A successful Step 6 with the instruction patch in place runs the kernel
body, lowering the corruption counter by exactly 3 (1 then 2). -/
theorem step6_ok (ctr : Nat) (acl : List Nat) (s : MemChunkHaxState)
    (hp : s.threadPatched = true)
    (h : (MemChunkHax.Step6_ExecuteSVCCode ctr acl s).1 = 0) :
    (MemChunkHax.Step6_ExecuteSVCCode ctr acl s).2.1.corrupted = s.corrupted - 3 := by
  by_cases hg : s.nextStep ≠ 6
  · exfalso
    simp only [MemChunkHax.Step6_ExecuteSVCCode, if_pos hg] at h
    exact absurd h (by decide)
  · simp only [MemChunkHax.Step6_ExecuteSVCCode, if_neg hg, hp, if_true,
      MemChunkHax.step6b_eq]
    norm_num [STEP6_SUCCESS_RESULT]
    exact (by omega : s.corrupted - 1 - 2 = s.corrupted - 3)

/-- C1: on every end-to-end run of either state machine in which every step
returns 0, the corruption-level counter is exactly 0 in the final session
state.  For the legacy machine Step 5 adds 2 then 1 and the Step 6 kernel
repairs subtract 1 then 2; the vtable-hijack machine declares no corruption
counter, so the level it tracks (`corruptionLevel`, identically 0) is 0 at
completion. -/
theorem corruptionCounter_zero_on_success :
    (∀ (ar aa : Nat) (eo : Bool) (f2 f4 g1 rn g2 rp k2 k4 c1 c2 fr ctr : Nat)
        (acl acl6 : List Nat) (p1 p2 p3 : Nat × Nat)
        (s1 s2 s3 s4 s5 s6 s7 : MemChunkHaxState) (tr : List SrvAction),
        MemChunkHax.Step1_Initialize MemChunkHax.initialState = (0, s1) →
        MemChunkHax.Step2_AllocateMemory ar aa eo s1 = (0, s2) →
        MemChunkHax.Step3_SurroundFree f2 f4 s2 = (0, s3) →
        MemChunkHax.Step4_VerifyExpectedLayout g1 rn g2 rp k2 k4 s3 = (0, s4) →
        MemChunkHax.Step5_CorruptCreateThread c1 c2 fr s4 = (0, s5) →
        MemChunkHax.Step6_ExecuteSVCCode ctr acl s5 = (0, s6, acl6) →
        MemChunkHax.Step7_GrantServiceAccess p1 p2 p3 s6 = (0, s7, tr) →
        s7.corrupted = 0)
    ∧ (∀ (heapEnd aptR : Nat) (r1 r2 : Nat × Nat) (r3 : Nat) (co : Nat × Nat)
        (bo dl al re : Bool) (mr : Nat) (acl acl3 : List Nat) (p1 p2 p3 : Nat × Nat)
        (t1 t2 t3 t4 : MemChunkHax2State) (tr : List SrvAction),
        MemChunkHax2.Step1_Initialize aptR (MemChunkHax2.initialState heapEnd) = (0, t1) →
        MemChunkHax2.Step2_IsolatePage r1 r2 r3 t1 = (0, t2) →
        MemChunkHax2.Step3_OverwriteVtable co bo dl al re mr acl t2 = (0, t3, acl3) →
        MemChunkHax2.Step4_GrantServiceAccess p1 p2 p3 t3 = (0, t4, tr) →
        MemChunkHax2.corruptionLevel t4 = 0) := by
  constructor
  · intro ar aa eo f2 f4 g1 rn g2 rp k2 k4 c1 c2 fr ctr acl acl6 p1 p2 p3
      s1 s2 s3 s4 s5 s6 s7 tr e1 e2 e3 e4 e5 e6 e7
    have f1 := step1_frame MemChunkHax.initialState
    rw [e1] at f1
    simp only [MemChunkHax.initialState] at f1
    have f2f := step2_frame ar aa eo s1
    rw [e2] at f2f
    have f3f := step3_frame f2 f4 s2
    rw [e3] at f3f
    have f4f := step4_frame g1 rn g2 rp k2 k4 s3
    rw [e4] at f4f
    have hr5 : (MemChunkHax.Step5_CorruptCreateThread c1 c2 fr s4).1 = 0 := by rw [e5]
    have e5f := step5_ok c1 c2 fr s4 hr5
    rw [e5] at e5f
    have hr6 : (MemChunkHax.Step6_ExecuteSVCCode ctr acl s5).1 = 0 := by rw [e6]
    have e6f := step6_ok ctr acl s5 e5f.2 hr6
    rw [e6] at e6f
    have f7f := step7_frame p1 p2 p3 s6
    rw [e7] at f7f
    simp only at f1 f2f f3f f4f e5f e6f f7f
    omega
  · intro heapEnd aptR r1 r2 r3 co bo dl al re mr acl acl3 p1 p2 p3 t1 t2 t3 t4 tr
      e1 e2 e3 e4
    rfl

/-- Witness for `corruptionCounter_zero_on_success`: the concrete successful
run `runW1`…`runW7` ends with the counter at 0. -/
theorem corruptionCounter_zero_on_success_witness : runW7.corrupted = 0 :=
  corruptionCounter_zero_on_success.1 0 0 true 0 0 0 7 0 5 5 7 0 0 0 0 []
    s_fullAccessACL (0, 42) (0, 0) (0, 42) runW1 runW2 runW3 runW4 runW5 runW6 runW7
    [SrvAction.patchPID, SrvAction.srvReinit, SrvAction.unpatchPID]
    rfl rfl rfl rfl rfl rfl rfl

/-- C4: whenever the corruption counter is nonzero in a reachable session
state, running the destructor enters the deliberate infinite sleep loop
(`DtorOutcome.freeze`) instead of completing destruction. -/
theorem destructor_freezes_while_corrupted :
    ∀ s : MemChunkHaxState, MemChunkHax.Reachable s → s.corrupted ≠ 0 →
      MemChunkHax.destructor s = MemChunkHax.DtorOutcome.freeze := by
  intro s hr hc
  have h1 := (MemChunkHax.reachable_inv hr).1
  unfold MemChunkHax.destructor
  rw [if_pos (by omega)]

/-- Witness for `destructor_freezes_while_corrupted`: destroying the session
after Step 5's failed page free (corruption level 2) freezes. -/
theorem destructor_freezes_while_corrupted_witness :
    MemChunkHax.destructor corruptedAbortState = MemChunkHax.DtorOutcome.freeze :=
  destructor_freezes_while_corrupted corruptedAbortState
    (MemChunkHax.Reachable.step5 0 0 9
      (MemChunkHax.Reachable.step4 0 7 0 5 5 7
        (MemChunkHax.Reachable.step3 0 0
          (MemChunkHax.Reachable.step2 0 0 true
            (MemChunkHax.Reachable.step1 MemChunkHax.Reachable.init)))))
    (by decide)

/-- C6: in every reachable session state, a completing destructor frees
exactly the overwrite pages whose bit is still set in the allocation bitmask;
a successful Step 3 clears bits 2 and 4 and a successful Step 5 clears bit 1,
so those pages are never freed again at destruction. -/
theorem destructor_frees_exactly_allocated :
    ∀ s : MemChunkHaxState, MemChunkHax.Reachable s →
      (∀ fr, MemChunkHax.destructor s = MemChunkHax.DtorOutcome.completes fr →
        ∀ x, x ∈ fr ↔ (x < 6 ∧ s.overwriteAllocated.testBit x = true))
      ∧ (∀ f2 f4, (MemChunkHax.Step3_SurroundFree f2 f4 s).1 = 0 →
          (MemChunkHax.Step3_SurroundFree f2 f4 s).2.overwriteAllocated.testBit 2 = false
          ∧ (MemChunkHax.Step3_SurroundFree f2 f4 s).2.overwriteAllocated.testBit 4 = false)
      ∧ (∀ c1 c2 fr2, (MemChunkHax.Step5_CorruptCreateThread c1 c2 fr2 s).1 = 0 →
          (MemChunkHax.Step5_CorruptCreateThread c1 c2 fr2 s).2.overwriteAllocated.testBit 1
            = false) := by
  intro s hr
  refine ⟨?_, ?_, ?_⟩
  · intro fr hc x
    unfold MemChunkHax.destructor at hc
    split at hc
    · exact absurd hc (by simp)
    · have hfr : fr = MemChunkHax.dtorFreeList s := by
        injection hc with h
        exact h.symm
      subst hfr
      unfold MemChunkHax.dtorFreeList
      by_cases hm : s.overwriteMemory = true
      · rw [if_pos hm]
        simp [List.mem_filter, List.mem_range]
      · rw [if_neg hm]
        have h3 := (MemChunkHax.reachable_inv hr).2.2 (by simpa using hm)
        simp [h3]
  · intro f2 f4 h
    by_cases hg : s.nextStep ≠ 3
    · exfalso
      simp only [MemChunkHax.Step3_SurroundFree, if_pos hg] at h
      exact absurd h (by decide)
    · by_cases h2 : f2 ≠ 0
      · exfalso
        simp only [MemChunkHax.Step3_SurroundFree, if_neg hg, if_pos h2] at h
        exact h2 h
      · by_cases h4 : f4 ≠ 0
        · exfalso
          simp only [MemChunkHax.Step3_SurroundFree, if_neg hg, if_neg h2, if_pos h4] at h
          exact h4 h
        · simp only [MemChunkHax.Step3_SurroundFree, if_neg hg, if_neg h2, if_neg h4]
          constructor
          · simp only [clearBit]
            simp [Nat.testBit_and]
            intro _
            decide
          · simp only [clearBit]
            simp [Nat.testBit_and]
            intro _
            decide
  · intro c1 c2 fr2 h
    by_cases hg : s.nextStep ≠ 5
    · exfalso
      simp only [MemChunkHax.Step5_CorruptCreateThread, if_pos hg] at h
      exact absurd h (by decide)
    · by_cases hc1 : c1 ≠ 0
      · exfalso
        simp only [MemChunkHax.Step5_CorruptCreateThread, if_neg hg, if_pos hc1] at h
        exact hc1 h
      · by_cases hc2 : c2 ≠ 0
        · exfalso
          simp only [MemChunkHax.Step5_CorruptCreateThread, if_neg hg, if_neg hc1,
            if_pos hc2] at h
          exact hc2 h
        · by_cases hfr : fr2 ≠ 0
          · exfalso
            simp only [MemChunkHax.Step5_CorruptCreateThread, if_neg hg, if_neg hc1,
              if_neg hc2, if_pos hfr] at h
            exact hfr h
          · simp only [MemChunkHax.Step5_CorruptCreateThread, if_neg hg, if_neg hc1,
              if_neg hc2, if_neg hfr]
            simp only [clearBit]
            simp [Nat.testBit_and]
            intro _
            decide

/-- Witness for `destructor_frees_exactly_allocated`: after the concrete
Step 3 (bits 2 and 4 freed), destruction-time freeing of page 2 is equivalent
to its bit being set. -/
theorem destructor_frees_exactly_allocated_witness :
    2 ∈ MemChunkHax.dtorFreeList runW3 ↔
      (2 < 6 ∧ runW3.overwriteAllocated.testBit 2 = true) :=
  (destructor_frees_exactly_allocated runW3
    (MemChunkHax.Reachable.step3 0 0
      (MemChunkHax.Reachable.step2 0 0 true
        (MemChunkHax.Reachable.step1 MemChunkHax.Reachable.init)))).1
    (MemChunkHax.dtorFreeList runW3) rfl 2

/-- C7 counterexample: in the grant-service-access step, when the PID
read-back after zeroing returns success but a nonzero PID (here oracle
`getPid2 = (0, 1)`), the step returns with only the zeroing action issued —
no restore of the original process identifier is attempted on that path,
contrary to the claim that every post-zeroing path attempts a restore. -/
theorem step7_skips_restore_on_nonzero_readback :
    MemChunkHax.Step7_GrantServiceAccess (0, 42) (0, 1) (0, 42) c7State
      = (MakeError 27 11 KHAX_MODULE 1023,
         { c7State with originalPID := 42 }, [SrvAction.patchPID])
    ∧ SrvAction.unpatchPID ∉ [SrvAction.patchPID] :=
  ⟨rfl, by decide⟩

/-- C7 amended: in the grant-service-access step of both variants, every path
executing after the process identifier has been zeroed attempts a restore
before returning, except the path on which the PID read-back succeeds with a
nonzero value (the read-back shows the zeroing did not take effect, and the
code returns without a restore there). -/
theorem grantServiceAccess_restores_after_zeroing :
    (∀ (p1 p2 p3 : Nat × Nat) (s : MemChunkHaxState),
        SrvAction.patchPID ∈ (MemChunkHax.Step7_GrantServiceAccess p1 p2 p3 s).2.2 →
        (p2.1 ≠ 0 ∨ p2.2 = 0) →
        SrvAction.unpatchPID ∈ (MemChunkHax.Step7_GrantServiceAccess p1 p2 p3 s).2.2)
    ∧ (∀ (p1 p2 p3 : Nat × Nat) (s : MemChunkHax2State),
        SrvAction.patchPID ∈ (MemChunkHax2.Step4_GrantServiceAccess p1 p2 p3 s).2.2 →
        (p2.1 ≠ 0 ∨ p2.2 = 0) →
        SrvAction.unpatchPID ∈ (MemChunkHax2.Step4_GrantServiceAccess p1 p2 p3 s).2.2) := by
  constructor
  · intro p1 p2 p3 s hmem hcond
    by_cases hg : s.nextStep ≠ 7
    · simp [MemChunkHax.Step7_GrantServiceAccess, hg] at hmem
    · by_cases ha : p1.1 ≠ 0
      · simp [MemChunkHax.Step7_GrantServiceAccess, hg, ha] at hmem
      · by_cases hb : p2.1 ≠ 0
        · simp [MemChunkHax.Step7_GrantServiceAccess, hg, ha, hb]
        · by_cases hc2 : p2.2 ≠ 0
          · rcases hcond with hx | hx
            · exact absurd hx hb
            · exact absurd hx hc2
          · simp only [MemChunkHax.Step7_GrantServiceAccess, if_neg hg, if_neg ha,
              if_neg hb, if_neg hc2]
            split_ifs <;> simp
  · intro p1 p2 p3 s hmem hcond
    by_cases hg : s.nextStep ≠ 4
    · simp [MemChunkHax2.Step4_GrantServiceAccess, hg] at hmem
    · by_cases ha : p1.1 ≠ 0
      · simp [MemChunkHax2.Step4_GrantServiceAccess, hg, ha] at hmem
      · by_cases hb : p2.1 ≠ 0
        · simp [MemChunkHax2.Step4_GrantServiceAccess, hg, ha, hb]
        · by_cases hc2 : p2.2 ≠ 0
          · rcases hcond with hx | hx
            · exact absurd hx hb
            · exact absurd hx hc2
          · simp only [MemChunkHax2.Step4_GrantServiceAccess, if_neg hg, if_neg ha,
              if_neg hb, if_neg hc2]
            split_ifs <;> simp

/-- Witness for `grantServiceAccess_restores_after_zeroing`: on the fully
successful path the restore action is issued before the step returns. -/
theorem grantServiceAccess_restores_after_zeroing_witness :
    SrvAction.unpatchPID ∈
      (MemChunkHax.Step7_GrantServiceAccess (0, 42) (0, 0) (0, 42) c7State).2.2 :=
  grantServiceAccess_restores_after_zeroing.1 (0, 42) (0, 0) (0, 42) c7State
    (by decide) (Or.inr rfl)

end KHAX
